import Mathlib

/-!
Shallow embedding of the BloodLine blood-donation server (src/index.js).

Documents of the MongoDB collections are modelled as association lists from
field names to JSON-ish values.  A JS object spread followed by explicit
fields, such as the handler expression spreading the request body and then
forcing a status field, is modelled by `setField`.  JS `undefined` that the
driver serializes as null inside an update document is modelled as
`Value.vnull`.  Handlers are pure functions from the database state and the
request data to a response plus the new database state.  An unhandled JS
exception inside a handler (a property access on `null`) is modelled by the
`Resp.crash` response constructor: no well-formed HTTP response is produced
and the database is left unchanged.  Wall-clock values (`new Date()`) and
driver-generated object ids are passed in as explicit parameters.  Date
parsing performed by the JS engine or by the MongoDB `$convert` operator is
abstracted as an explicit `parse` parameter returning a year/month pair or
`none` for an invalid date.
-/

namespace BloodLine

/-- A stored field value: a string, or null.  Dates and numbers that no
claim inspects numerically are carried as strings. -/
inductive Value where
  | vstr : String → Value
  | vnull : Value
deriving DecidableEq, Repr

/-- A document: an association list from field names to values.  Lookup
takes the first binding of a key. -/
abbrev Doc := List (String × Value)

/-- Field lookup: first binding wins, `none` means the field is absent. -/
def getField (d : Doc) (k : String) : Option Value :=
  (d.find? (fun p => decide (p.1 = k))).map (fun p => p.2)

/-- Object spread update: the result binds `k` to `v` and every other key
to its value in `d` (models the JS spread with a trailing explicit field,
and a single key of a `$set` update document). -/
def setField (d : Doc) (k : String) (v : Value) : Doc :=
  (k, v) :: d.filter (fun p => !decide (p.1 = k))

/-- Reading a body field for use inside a `$set` document: a JS property
access yields `undefined` when the key is absent, and the driver serializes
`undefined` as null (default `ignoreUndefined: false`). -/
def jsField (body : Doc) (k : String) : Value :=
  (getField body k).getD Value.vnull

/-- The three collections of bloodlineDB that the claims touch.  Donation
requests carry their `_id` as a `Nat` alongside the document. -/
structure DB where
  usersCollection : List Doc
  requestsCollection : List (Nat × Doc)
  paymentsCollection : List Doc
deriving DecidableEq, Repr

/-- `usersCollection.findOne` on an email equality query. -/
def findUser (users : List Doc) (email : String) : Option Doc :=
  users.find? (fun d => decide (getField d ("email") = some (Value.vstr email)))

/-- An HTTP response as the handlers produce it: a non-200 error status with
a message, a 200 `res.send` with a typed body, or an unhandled exception
escaping the handler (no response at all). -/
inductive Resp (α : Type) where
  | err : Nat → String → Resp α
  | ok : α → Resp α
  | crash : Resp α
deriving DecidableEq, Repr

/-- The body Mongo insert handlers send back: the driver result carries an
insertedId; the duplicate branches send a message with insertedId null. -/
structure InsertResp where
  message : Option String
  insertedId : Option Nat
deriving DecidableEq, Repr

/-- The optional `?status=` query filter used by several list endpoints:
when present the query also requires an equal status field. -/
def statusMatches (statusFilter : Option String) (d : Doc) : Bool :=
  match statusFilter with
  | none => true
  | some s => decide (getField d ("status") = some (Value.vstr s))

/-- POST /donation-request (src/index.js:83-99).  Looks up the caller's
profile; a missing profile makes the `requester.status` access throw
(crash); a blocked profile gets 403 with no insert; otherwise the body is
inserted with its status field forced to pending by the spread. -/
def createDonationRequest (db : DB) (callerEmail : String) (body : Doc)
    (freshId : Nat) : Resp InsertResp × DB :=
  match findUser db.usersCollection callerEmail with
  | none => (Resp.crash, db)
  | some requester =>
    if getField requester ("status") = some (Value.vstr ("blocked")) then
      (Resp.err 403 ("Blocked users cannot create donation requests"), db)
    else
      let newRequest := setField body ("status") (Value.vstr ("pending"))
      (Resp.ok (InsertResp.mk none (some freshId)),
        DB.mk db.usersCollection (db.requestsCollection ++ [(freshId, newRequest)])
          db.paymentsCollection)

/-- GET /donation-requests/:email (src/index.js:102-115).  Self-only: a
token/path email mismatch yields 403; otherwise lists the caller's own
requests, optionally filtered by status. -/
def getDonationRequestsByEmail (db : DB) (tokenEmail pathEmail : String)
    (statusFilter : Option String) : Resp (List (Nat × Doc)) :=
  if tokenEmail ≠ pathEmail then Resp.err 403 ("forbidden access")
  else
    Resp.ok (db.requestsCollection.filter (fun r =>
      decide (getField r.2 ("requesterEmail") = some (Value.vstr pathEmail))
        && statusMatches statusFilter r.2))

/-- `updateOne` on the requests collection: applies `f` to the document of
the first entry whose `_id` equals `id`, leaving everything else alone (a
no-op when no entry matches). -/
def updateReq (reqs : List (Nat × Doc)) (id : Nat) (f : Doc → Doc) :
    List (Nat × Doc) :=
  match reqs with
  | [] => []
  | r :: rest =>
    if r.1 = id then (r.1, f r.2) :: rest else r :: updateReq rest id f

/-- `findOne` by `_id` on the requests collection. -/
def getReq (reqs : List (Nat × Doc)) (id : Nat) : Option Doc :=
  (reqs.find? (fun r => decide (r.1 = id))).map (fun r => r.2)

/-- The allow-list of fields the content-update endpoint writes. -/
def editableRequestFields : List String :=
  [("recipientName"), ("recipientDistrict"), ("recipientUpazila"),
   ("hospitalName"), ("fullAddress"), ("bloodGroup"), ("donationDate"),
   ("donationTime"), ("requestMessage")]

/-- The `$set` document of PUT /donation-request/:id applied to a stored
document: each allow-listed field is set to the body's value for it. -/
def contentUpdate (body : Doc) (d : Doc) : Doc :=
  editableRequestFields.foldl (fun acc k => setField acc k (jsField body k)) d

/-- PUT /donation-request/:id (src/index.js:144-163).  Updates the nine
allow-listed content fields of the addressed request.  The driver's update
result body (matched/modified counts) is elided: no claim inspects it. -/
def updateDonationRequest (db : DB) (id : Nat) (body : Doc) :
    Resp Unit × DB :=
  (Resp.ok (),
    DB.mk db.usersCollection (updateReq db.requestsCollection id (contentUpdate body))
      db.paymentsCollection)

/-- The `$set` document of PUT /donation-request/donate/:id applied to a
stored document: status forced to inprogress, donor fields overwritten. -/
def donateUpdate (donorName donorEmail : Value) (d : Doc) : Doc :=
  setField (setField (setField d ("status") (Value.vstr ("inprogress")))
    ("donorName") donorName) ("donorEmail") donorEmail

/-- PUT /donation-request/donate/:id (src/index.js:166-179).  Sets status to
inprogress and the donor fields unconditionally, with no check of the prior
status. -/
def donateRequest (db : DB) (id : Nat) (donorName donorEmail : Value) :
    Resp Unit × DB :=
  (Resp.ok (),
    DB.mk db.usersCollection
      (updateReq db.requestsCollection id (donateUpdate donorName donorEmail))
      db.paymentsCollection)

/-- `usersCollection.findOne` on the email value taken from a request body
(the body's email field may be absent). -/
def findUserByEmailVal (users : List Doc) (v : Option Value) : Option Doc :=
  users.find? (fun d => decide (getField d ("email") = v))

/-- The document POST /users inserts: the body spread with role, status and
timestamp forced. -/
def newUserDoc (body : Doc) (now : Value) : Doc :=
  setField (setField (setField body ("role") (Value.vstr ("donor")))
    ("status") (Value.vstr ("active"))) ("timestamp") now

/-- POST /users (src/index.js:272-289).  `findOne` on the body's email; if a
user exists, responds with insertedId null and changes nothing; otherwise
inserts the body with role, status and timestamp forced by the spread. -/
def postUsers (db : DB) (body : Doc) (now : Value) (freshId : Nat) :
    Resp InsertResp × DB :=
  match findUserByEmailVal db.usersCollection (getField body ("email")) with
  | some _ => (Resp.ok (InsertResp.mk (some ("user already exists")) none), db)
  | none =>
    (Resp.ok (InsertResp.mk none (some freshId)),
      DB.mk (db.usersCollection ++ [newUserDoc body now]) db.requestsCollection
        db.paymentsCollection)

/-- GET /users/role/:email (src/index.js:292-299).  Self-only: mismatch
yields 403; otherwise answers the stored role (absent when the profile or
its role field is missing). -/
def getUsersRole (db : DB) (tokenEmail pathEmail : String) :
    Resp (Option Value) :=
  if tokenEmail ≠ pathEmail then Resp.err 403 ("forbidden access")
  else
    Resp.ok ((findUser db.usersCollection pathEmail).bind
      (fun d => getField d ("role")))

/-- A year/month bucket as produced by `getFullYear`/`getMonth` (JS months
are 0-based) or by the aggregation's `$year`/`$month` operators. -/
structure YM where
  year : Nat
  month : Nat
deriving DecidableEq, Repr

/-- `new Date(value)` reduced to its year/month pair: a string goes through
the engine's date parser (`parse`, `none` meaning an invalid date), null is
the epoch (January 1970), and `undefined` is an invalid date. -/
def jsDateYM (parse : String → Option YM) (v : Option Value) : Option YM :=
  match v with
  | some (Value.vstr s) => parse s
  | some Value.vnull => some (YM.mk 1970 0)
  | none => none

/-- The donations-as-donor query of GET /user-stats/:email: requests whose
donorEmail is the given email and whose status is done. -/
def donorDoneDocs (db : DB) (email : String) : List (Nat × Doc) :=
  db.requestsCollection.filter (fun r =>
    decide (getField r.2 ("donorEmail") = some (Value.vstr email))
      && decide (getField r.2 ("status") = some (Value.vstr ("done"))))

/-- The requester query of GET /user-stats/:email: requests whose
requesterEmail is the given email. -/
def requesterDocs (db : DB) (email : String) : List (Nat × Doc) :=
  db.requestsCollection.filter (fun r =>
    decide (getField r.2 ("requesterEmail") = some (Value.vstr email)))

/-- The body GET /user-stats/:email sends. -/
structure UserStatsResp where
  donations : Nat
  requests : Nat
  activeRequests : Nat
  thisMonth : Nat
  successRate : Nat
  level : String
  helped : Nat
  avgResponseTime : Nat
deriving DecidableEq, Repr

/-- The level ternary of GET /user-stats/:email (src/index.js:341): Gold
when the donation count is strictly above 10, Silver when strictly above 5,
otherwise Bronze. -/
def levelOfDonations (donations : Nat) : String :=
  if donations > 10 then ("Gold")
  else if donations > 5 then ("Silver")
  else ("Bronze")

/-- The active-requests count of GET /user-stats/:email: own requests whose
status is pending or inprogress. -/
def activeRequestsCount (db : DB) (email : String) : Nat :=
  ((requesterDocs db email).filter (fun r =>
    decide (getField r.2 ("status") = some (Value.vstr ("pending")))
      || decide (getField r.2 ("status") = some (Value.vstr ("inprogress"))))).length

/-- The current-month donation count of GET /user-stats/:email: donations
as donor whose donationDate parses to the current year and month. -/
def thisMonthDonationsCount (db : DB) (email : String)
    (parse : String → Option YM) (now : YM) : Nat :=
  ((donorDoneDocs db email).filter (fun r =>
    decide (jsDateYM parse (getField r.2 ("donationDate")) = some now))).length

/-- GET /user-stats/:email (src/index.js:302-345).  Self-only: mismatch
yields 403.  Otherwise counts donations as donor (status done), total and
active own requests, current-month donations, and derives the level from
the donation count. -/
def getUserStats (db : DB) (tokenEmail pathEmail : String)
    (parse : String → Option YM) (now : YM) : Resp UserStatsResp :=
  if tokenEmail ≠ pathEmail then Resp.err 403 ("forbidden access")
  else
    let donations := (donorDoneDocs db pathEmail).length
    Resp.ok (UserStatsResp.mk donations (requesterDocs db pathEmail).length
      (activeRequestsCount db pathEmail)
      (thisMonthDonationsCount db pathEmail parse now)
      (if donations > 0 then 100 else 0)
      (levelOfDonations donations) donations 2)

/-- GET /user/:email (src/index.js:347-351).  The source performs no
self-only comparison: the token email is ignored and the addressed profile
is returned to any authenticated caller. -/
def getUser (db : DB) (tokenEmail pathEmail : String) : Resp (Option Doc) :=
  Resp.ok (findUser db.usersCollection pathEmail)

/-- The allow-list of fields the profile-update endpoint writes. -/
def profileUpdateFields : List String :=
  [("name"), ("avatar"), ("district"), ("upazila"), ("bloodGroup"), ("phone")]

/-- `updateOne` on the users collection keyed by email: applies `f` to the
first matching profile. -/
def updateUserByEmail (users : List Doc) (email : String) (f : Doc → Doc) :
    List Doc :=
  match users with
  | [] => []
  | d :: rest =>
    if getField d ("email") = some (Value.vstr email) then f d :: rest
    else d :: updateUserByEmail rest email f

/-- PATCH /user/:email (src/index.js:354-370).  Like GET /user/:email the
source performs no self-only comparison: any authenticated caller may
update the addressed profile's allow-listed fields. -/
def patchUser (db : DB) (tokenEmail pathEmail : String) (body : Doc) :
    Resp Unit × DB :=
  (Resp.ok (),
    DB.mk (updateUserByEmail db.usersCollection pathEmail (fun d =>
        profileUpdateFields.foldl (fun acc k => setField acc k (jsField body k)) d))
      db.requestsCollection db.paymentsCollection)

/-- GET /all-blood-donation-requests (src/index.js:254-268).  Looks up the
caller's profile; a missing profile makes the `user.role` access throw
(crash); a non-staff role gets 403; staff get the optionally
status-filtered listing. -/
def allBloodDonationRequests (db : DB) (tokenEmail : String)
    (statusFilter : Option String) : Resp (List (Nat × Doc)) :=
  match findUser db.usersCollection tokenEmail with
  | none => Resp.crash
  | some u =>
    if ¬ getField u ("role") = some (Value.vstr ("admin"))
        ∧ ¬ getField u ("role") = some (Value.vstr ("volunteer")) then
      Resp.err 403 ("forbidden access")
    else
      Resp.ok (db.requestsCollection.filter (fun r => statusMatches statusFilter r.2))

/-- What the handler reads from the external processor's checkout session:
its payment status and the metadata written at session creation. -/
structure StripeSession where
  payment_status : String
  donorName : Value
  donorEmail : Value
  amount : Value
deriving DecidableEq, Repr

/-- `findOne` by transactionId on the payments collection. -/
def findPayment (payments : List Doc) (tid : String) : Option Doc :=
  payments.find? (fun d =>
    decide (getField d ("transactionId") = some (Value.vstr tid)))

/-- The ledger entry POST /payments/save-session inserts.  The `parseFloat`
on the metadata amount is elided: the amount value is stored as carried. -/
def paymentDoc (s : StripeSession) (sessionId : String) (now : Value) : Doc :=
  [(("name"), s.donorName), (("email"), s.donorEmail),
   (("amount"), s.amount), (("transactionId"), Value.vstr sessionId),
   (("date"), now)]

/-- POST /payments/save-session (src/index.js:461-494).  With the processor
configured, retrieves the session (`none` models the retrieve call
throwing, answered 500); a paid session is recorded unless a ledger entry
with the same transactionId already exists, in which case the handler
responds insertedId null and changes nothing. -/
def savePaymentSession (db : DB) (stripeConfigured : Bool) (sessionId : String)
    (retrieved : Option StripeSession) (now : Value) (freshId : Nat) :
    Resp InsertResp × DB :=
  if !stripeConfigured then (Resp.err 500 ("Stripe error"), db)
  else
    match retrieved with
    | none => (Resp.err 500 ("Error verifying payment"), db)
    | some s =>
      if s.payment_status = "paid" then
        match findPayment db.paymentsCollection sessionId with
        | some _ =>
          (Resp.ok (InsertResp.mk (some ("Payment already saved")) none), db)
        | none =>
          (Resp.ok (InsertResp.mk none (some freshId)),
            DB.mk db.usersCollection db.requestsCollection
              (db.paymentsCollection ++ [paymentDoc s sessionId now]))
      else (Resp.err 400 ("Payment not paid"), db)

/-- The `(year, month)` bucket the admin-stats aggregation assigns to one
request: `$convert` of its donationDate with both `onError` and `onNull`
falling back to the current date (src/index.js:527-553). -/
def bucketOf (parse : String → Option YM) (now : YM) (d : Doc) : YM :=
  match getField d ("donationDate") with
  | some (Value.vstr s) => (parse s).getD now
  | some Value.vnull => now
  | none => now

/-- The monthlyStats aggregation of GET /admin-stats: group the requests by
bucket and count each group (src/index.js:527-562).  The trailing `$sort`
stage only reorders the buckets and is elided. -/
def monthlyStats (parse : String → Option YM) (now : YM)
    (reqs : List (Nat × Doc)) : List (YM × Nat) :=
  let bs := reqs.map (fun r => bucketOf parse now r.2)
  bs.dedup.map (fun b => (b, bs.count b))

-- Concrete data used by witnesses and counterexamples.

def activeUserDoc : Doc :=
  [(("email"), Value.vstr ("u@x")), (("status"), Value.vstr ("active"))]

def blockedUserDoc : Doc :=
  [(("email"), Value.vstr ("b@x")), (("status"), Value.vstr ("blocked"))]

def dbW : DB := DB.mk [activeUserDoc, blockedUserDoc] [] []

def bodyW : Doc :=
  [(("bloodGroup"), Value.vstr ("O+")), (("status"), Value.vstr ("done"))]

def aliceDoc : Doc :=
  [(("email"), Value.vstr ("alice@x")), (("role"), Value.vstr ("admin")),
   (("status"), Value.vstr ("active"))]

def dbC3 : DB := DB.mk [aliceDoc] [] []

/-- A date parser instance used only to instantiate witnesses. -/
def parseNone : String → Option YM := fun _ => none

def doneReqDoc : Doc :=
  [(("donorEmail"), Value.vstr ("don@x")), (("status"), Value.vstr ("done")),
   (("requesterEmail"), Value.vstr ("req@x"))]

def dbC9 : DB :=
  DB.mk [] [(1, doneReqDoc), (2, doneReqDoc), (3, doneReqDoc),
    (4, doneReqDoc), (5, doneReqDoc)] []

def dbR : DB := DB.mk [activeUserDoc] [(7, doneReqDoc)] []

def sessionW : StripeSession :=
  StripeSession.mk ("paid") (Value.vstr ("N")) (Value.vstr ("n@x"))
    (Value.vstr ("25"))

def reqDocW : Doc :=
  [(("requesterEmail"), Value.vstr ("u@x")),
   (("recipientName"), Value.vstr ("R")),
   (("status"), Value.vstr ("inprogress")),
   (("donorName"), Value.vstr ("D")),
   (("donorEmail"), Value.vstr ("d@x"))]

def contentBodyW : Doc :=
  [(("recipientName"), Value.vstr ("R2")),
   (("status"), Value.vstr ("done")),
   (("donorEmail"), Value.vstr ("evil@x"))]

def dbC7 : DB := DB.mk [activeUserDoc] [(3, reqDocW)] []

def userBodyW : Doc :=
  [(("email"), Value.vstr ("new@x")), (("name"), Value.vstr ("New")),
   (("role"), Value.vstr ("admin"))]

def reqsC8 : List (Nat × Doc) :=
  [(1, [(("donationDate"), Value.vstr ("2024-05-10"))]),
   (2, [(("donationDate"), Value.vstr ("garbage"))]),
   (3, [(("donationDate"), Value.vnull)]),
   (4, [])]

/-- A date parser instance recognising one date, used only to instantiate
witnesses. -/
def parseOne : String → Option YM := fun s =>
  if s = "2024-05-10" then some (YM.mk 2024 5) else none

end BloodLine

namespace BloodLine

-- ------------------------------------------------------------------
-- Field lookup / update lemmas
-- ------------------------------------------------------------------

theorem getField_setField_same (d : Doc) (k : String) (v : Value) :
    getField (setField d k v) k = some v := by
  simp [getField, setField, List.find?]

theorem find?_filter_other_key (l : Doc) (k k2 : String) (h : ¬ k2 = k) :
    List.find? (fun p => decide (p.1 = k2))
        (l.filter (fun p => !decide (p.1 = k)))
      = List.find? (fun p => decide (p.1 = k2)) l := by
  induction l with
  | nil => rfl
  | cons p rest ih =>
    have hkk2 : ¬ k = k2 := by
      intro hc
      exact h hc.symm
    by_cases hk : p.1 = k
    · have hk2 : ¬ p.1 = k2 := by
        intro hc
        exact h (hc ▸ hk)
      simp [List.filter_cons, List.find?_cons, hk, hk2, hkk2, ih]
    · by_cases hk2 : p.1 = k2
      · simp [List.filter_cons, List.find?_cons, hk, hk2, h, ih]
      · simp [List.filter_cons, List.find?_cons, hk, hk2, ih]

theorem getField_setField_other (d : Doc) (k k2 : String) (v : Value)
    (h : ¬ k2 = k) : getField (setField d k v) k2 = getField d k2 := by
  simp only [getField, setField, List.find?]
  have hne : decide (k = k2) = false := by
    simp
    intro hc
    exact h hc.symm
  simp [hne, find?_filter_other_key d k k2 h]

/-- Claim C1: for an authenticated caller with an existing, non-blocked
profile, POST /donation-request inserts the body with its status forced to
pending, whatever status the client supplied, and answers 200. -/
theorem createRequest_forces_pending_status (db : DB) (callerEmail : String)
    (body : Doc) (freshId : Nat) (u : Doc)
    (hu : findUser db.usersCollection callerEmail = some u)
    (hb : ¬ getField u ("status") = some (Value.vstr ("blocked"))) :
    (createDonationRequest db callerEmail body freshId).2.requestsCollection
      = db.requestsCollection
        ++ [(freshId, setField body ("status") (Value.vstr ("pending")))]
    ∧ getField (setField body ("status") (Value.vstr ("pending"))) ("status")
      = some (Value.vstr ("pending"))
    ∧ (createDonationRequest db callerEmail body freshId).1
      = Resp.ok (InsertResp.mk none (some freshId)) := by
  refine ⟨?_, getField_setField_same body ("status") (Value.vstr ("pending")), ?_⟩
  · simp [createDonationRequest, hu, hb]
  · simp [createDonationRequest, hu, hb]

theorem createRequest_forces_pending_status_witness :
    findUser dbW.usersCollection ("u@x") = some activeUserDoc
    ∧ ¬ getField activeUserDoc ("status") = some (Value.vstr ("blocked"))
    ∧ ((createDonationRequest dbW ("u@x") bodyW 1).2.requestsCollection
        = dbW.requestsCollection
          ++ [(1, setField bodyW ("status") (Value.vstr ("pending")))]
      ∧ getField (setField bodyW ("status") (Value.vstr ("pending"))) ("status")
        = some (Value.vstr ("pending"))
      ∧ (createDonationRequest dbW ("u@x") bodyW 1).1
        = Resp.ok (InsertResp.mk none (some 1))) :=
  ⟨by decide, by decide,
    createRequest_forces_pending_status dbW ("u@x") bodyW 1 activeUserDoc
      (by decide) (by decide)⟩

/-- Claim C2: a caller whose stored profile has status blocked gets 403 from
POST /donation-request and the database is unchanged. -/
theorem blocked_create_forbidden_no_insert (db : DB) (callerEmail : String)
    (body : Doc) (freshId : Nat) (u : Doc)
    (hu : findUser db.usersCollection callerEmail = some u)
    (hb : getField u ("status") = some (Value.vstr ("blocked"))) :
    createDonationRequest db callerEmail body freshId
      = (Resp.err 403 ("Blocked users cannot create donation requests"), db) := by
  simp [createDonationRequest, hu, hb]

theorem blocked_create_forbidden_no_insert_witness :
    findUser dbW.usersCollection ("b@x") = some blockedUserDoc
    ∧ getField blockedUserDoc ("status") = some (Value.vstr ("blocked"))
    ∧ createDonationRequest dbW ("b@x") bodyW 1
      = (Resp.err 403 ("Blocked users cannot create donation requests"), dbW) :=
  ⟨by decide, by decide,
    blocked_create_forbidden_no_insert dbW ("b@x") bodyW 1 blockedUserDoc
      (by decide) (by decide)⟩

/-- Claim C3 counterexample: GET /user/:email performs no self-only check.
With a token email differing from the path email, the addressed profile is
returned with a 200 instead of a 403: stored document data leaks. -/
theorem selfOnly_profile_read_counterexample :
    getUser dbC3 ("mallory@x") ("alice@x") = Resp.ok (some aliceDoc)
    ∧ ¬ getUser dbC3 ("mallory@x") ("alice@x")
        = Resp.err 403 ("forbidden access") := by
  constructor
  · decide
  · decide

/-- Claim C3 (amended): of the listed endpoints, the role lookup, the
own-requests listing and the user-stats endpoints do answer 403 on a
token/path email mismatch, returning no stored data; the profile read and
profile update endpoints perform no such check. -/
theorem selfOnly_checked_endpoints_forbidden (db : DB)
    (tokenEmail pathEmail : String) (statusFilter : Option String)
    (parse : String → Option YM) (now : YM)
    (h : tokenEmail ≠ pathEmail) :
    getUsersRole db tokenEmail pathEmail = Resp.err 403 ("forbidden access")
    ∧ getDonationRequestsByEmail db tokenEmail pathEmail statusFilter
      = Resp.err 403 ("forbidden access")
    ∧ getUserStats db tokenEmail pathEmail parse now
      = Resp.err 403 ("forbidden access") := by
  refine ⟨?_, ?_, ?_⟩ <;>
    simp [getUsersRole, getDonationRequestsByEmail, getUserStats, h]

theorem selfOnly_checked_endpoints_forbidden_witness :
    ("mallory@x" : String) ≠ ("alice@x")
    ∧ (getUsersRole dbC3 ("mallory@x") ("alice@x")
        = Resp.err 403 ("forbidden access")
      ∧ getDonationRequestsByEmail dbC3 ("mallory@x") ("alice@x") none
        = Resp.err 403 ("forbidden access")
      ∧ getUserStats dbC3 ("mallory@x") ("alice@x") parseNone (YM.mk 2025 0)
        = Resp.err 403 ("forbidden access")) :=
  ⟨by decide,
    selfOnly_checked_endpoints_forbidden dbC3 ("mallory@x") ("alice@x") none
      parseNone (YM.mk 2025 0) (by decide)⟩

/-- Claim C10: with a valid token but no stored profile for the token's
email, POST /donation-request crashes on the `requester.status` access: no
error response is produced and nothing is inserted; the same unguarded
`user.role` access crashes GET /all-blood-donation-requests. -/
theorem missing_profile_crashes (db : DB) (callerEmail : String) (body : Doc)
    (freshId : Nat) (statusFilter : Option String)
    (h : findUser db.usersCollection callerEmail = none) :
    createDonationRequest db callerEmail body freshId = (Resp.crash, db)
    ∧ allBloodDonationRequests db callerEmail statusFilter = Resp.crash := by
  constructor
  · simp [createDonationRequest, h]
  · simp [allBloodDonationRequests, h]

theorem missing_profile_crashes_witness :
    findUser dbW.usersCollection ("ghost@x") = none
    ∧ (createDonationRequest dbW ("ghost@x") bodyW 1 = (Resp.crash, dbW)
      ∧ allBloodDonationRequests dbW ("ghost@x") none = Resp.crash) :=
  ⟨by decide, missing_profile_crashes dbW ("ghost@x") bodyW 1 none (by decide)⟩

-- ------------------------------------------------------------------
-- updateOne-by-id lemmas
-- ------------------------------------------------------------------

theorem getReq_cons (i : Nat) (d : Doc) (l : List (Nat × Doc)) (id : Nat) :
    getReq ((i, d) :: l) id = if i = id then some d else getReq l id := by
  by_cases h : i = id
  · simp [getReq, List.find?_cons, h]
  · simp [getReq, List.find?_cons, h]

theorem updateReq_cons (i : Nat) (d : Doc) (l : List (Nat × Doc)) (id : Nat)
    (f : Doc → Doc) :
    updateReq ((i, d) :: l) id f
      = if i = id then (i, f d) :: l else (i, d) :: updateReq l id f := rfl

theorem getReq_updateReq_same (reqs : List (Nat × Doc)) (id : Nat)
    (f : Doc → Doc) :
    getReq (updateReq reqs id f) id = (getReq reqs id).map f := by
  induction reqs with
  | nil => rfl
  | cons r rest ih =>
    obtain ⟨i, d⟩ := r
    rw [updateReq_cons]
    by_cases hr : i = id
    · rw [if_pos hr, getReq_cons, getReq_cons, if_pos hr, if_pos hr]
      rfl
    · rw [if_neg hr, getReq_cons, getReq_cons, if_neg hr, if_neg hr]
      exact ih

theorem getReq_updateReq_other (reqs : List (Nat × Doc)) (id id2 : Nat)
    (f : Doc → Doc) (h : ¬ id2 = id) :
    getReq (updateReq reqs id f) id2 = getReq reqs id2 := by
  induction reqs with
  | nil => rfl
  | cons r rest ih =>
    obtain ⟨i, d⟩ := r
    rw [updateReq_cons]
    by_cases hr : i = id
    · have hr2 : ¬ i = id2 := by
        intro hc
        exact h (hc.symm.trans hr)
      rw [if_pos hr, getReq_cons, getReq_cons, if_neg hr2, if_neg hr2]
    · by_cases hr2 : i = id2
      · rw [if_neg hr, getReq_cons, getReq_cons, if_pos hr2, if_pos hr2]
      · rw [if_neg hr, getReq_cons, getReq_cons, if_neg hr2, if_neg hr2]
        exact ih

theorem donateUpdate_fields (d : Doc) (n e : Value) :
    getField (donateUpdate n e d) ("status") = some (Value.vstr ("inprogress"))
    ∧ getField (donateUpdate n e d) ("donorName") = some n
    ∧ getField (donateUpdate n e d) ("donorEmail") = some e := by
  unfold donateUpdate
  refine ⟨?_, ?_, getField_setField_same _ _ _⟩
  · rw [getField_setField_other _ ("donorEmail") ("status") e (by decide),
      getField_setField_other _ ("donorName") ("status") n (by decide),
      getField_setField_same]
  · rw [getField_setField_other _ ("donorEmail") ("donorName") e (by decide),
      getField_setField_same]

/-- Claim C4: for an existing request of any prior status, the donate
endpoint answers 200, forces status inprogress and writes the donor
fields; re-applying it to the already-donated request succeeds again and
overwrites the donor fields. -/
theorem donate_overwrites_any_status (db : DB) (id : Nat) (d : Doc)
    (n e n2 e2 : Value)
    (hd : getReq db.requestsCollection id = some d) :
    (donateRequest db id n e).1 = Resp.ok ()
    ∧ getReq (donateRequest db id n e).2.requestsCollection id
      = some (donateUpdate n e d)
    ∧ getField (donateUpdate n e d) ("status") = some (Value.vstr ("inprogress"))
    ∧ getField (donateUpdate n e d) ("donorName") = some n
    ∧ getField (donateUpdate n e d) ("donorEmail") = some e
    ∧ (donateRequest (donateRequest db id n e).2 id n2 e2).1 = Resp.ok ()
    ∧ getReq (donateRequest (donateRequest db id n e).2 id n2 e2).2.requestsCollection id
      = some (donateUpdate n2 e2 (donateUpdate n e d))
    ∧ getField (donateUpdate n2 e2 (donateUpdate n e d)) ("status")
      = some (Value.vstr ("inprogress"))
    ∧ getField (donateUpdate n2 e2 (donateUpdate n e d)) ("donorName") = some n2
    ∧ getField (donateUpdate n2 e2 (donateUpdate n e d)) ("donorEmail") = some e2 := by
  have h1 : getReq (donateRequest db id n e).2.requestsCollection id
      = some (donateUpdate n e d) := by
    show getReq (updateReq db.requestsCollection id (donateUpdate n e)) id = _
    rw [getReq_updateReq_same, hd]
    rfl
  have h2 : getReq (donateRequest (donateRequest db id n e).2 id n2 e2).2.requestsCollection id
      = some (donateUpdate n2 e2 (donateUpdate n e d)) := by
    show getReq (updateReq (donateRequest db id n e).2.requestsCollection id
      (donateUpdate n2 e2)) id = _
    rw [getReq_updateReq_same, h1]
    rfl
  obtain ⟨hs1, hn1, he1⟩ := donateUpdate_fields d n e
  obtain ⟨hs2, hn2, he2b⟩ := donateUpdate_fields (donateUpdate n e d) n2 e2
  exact ⟨rfl, h1, hs1, hn1, he1, rfl, h2, hs2, hn2, he2b⟩

theorem donate_overwrites_any_status_witness :
    getReq dbR.requestsCollection 7 = some doneReqDoc
    ∧ ((donateRequest dbR 7 (Value.vstr ("A")) (Value.vstr ("a@x"))).1 = Resp.ok ()
      ∧ getReq (donateRequest dbR 7 (Value.vstr ("A")) (Value.vstr ("a@x"))).2.requestsCollection 7
        = some (donateUpdate (Value.vstr ("A")) (Value.vstr ("a@x")) doneReqDoc)
      ∧ getField (donateUpdate (Value.vstr ("A")) (Value.vstr ("a@x")) doneReqDoc) ("status")
        = some (Value.vstr ("inprogress"))
      ∧ getField (donateUpdate (Value.vstr ("A")) (Value.vstr ("a@x")) doneReqDoc) ("donorName")
        = some (Value.vstr ("A"))
      ∧ getField (donateUpdate (Value.vstr ("A")) (Value.vstr ("a@x")) doneReqDoc) ("donorEmail")
        = some (Value.vstr ("a@x"))
      ∧ (donateRequest (donateRequest dbR 7 (Value.vstr ("A")) (Value.vstr ("a@x"))).2 7
          (Value.vstr ("B")) (Value.vstr ("b2@x"))).1 = Resp.ok ()
      ∧ getReq (donateRequest (donateRequest dbR 7 (Value.vstr ("A")) (Value.vstr ("a@x"))).2 7
            (Value.vstr ("B")) (Value.vstr ("b2@x"))).2.requestsCollection 7
        = some (donateUpdate (Value.vstr ("B")) (Value.vstr ("b2@x"))
            (donateUpdate (Value.vstr ("A")) (Value.vstr ("a@x")) doneReqDoc))
      ∧ getField (donateUpdate (Value.vstr ("B")) (Value.vstr ("b2@x"))
            (donateUpdate (Value.vstr ("A")) (Value.vstr ("a@x")) doneReqDoc)) ("status")
        = some (Value.vstr ("inprogress"))
      ∧ getField (donateUpdate (Value.vstr ("B")) (Value.vstr ("b2@x"))
            (donateUpdate (Value.vstr ("A")) (Value.vstr ("a@x")) doneReqDoc)) ("donorName")
        = some (Value.vstr ("B"))
      ∧ getField (donateUpdate (Value.vstr ("B")) (Value.vstr ("b2@x"))
            (donateUpdate (Value.vstr ("A")) (Value.vstr ("a@x")) doneReqDoc)) ("donorEmail")
        = some (Value.vstr ("b2@x"))) :=
  ⟨by decide,
    donate_overwrites_any_status dbR 7 doneReqDoc (Value.vstr ("A"))
      (Value.vstr ("a@x")) (Value.vstr ("B")) (Value.vstr ("b2@x")) (by decide)⟩

-- ------------------------------------------------------------------
-- Allow-list update lemma
-- ------------------------------------------------------------------

theorem getField_foldl_setField_not_mem :
    ∀ (ks : List String) (body d : Doc) (k : String), ¬ k ∈ ks →
      getField (ks.foldl (fun acc k2 => setField acc k2 (jsField body k2)) d) k
        = getField d k
  | [], _, _, _, _ => rfl
  | k2 :: rest, body, d, k, h => by
    have h1 : ¬ k = k2 := by
      intro hc
      exact h (by simp [hc])
    have h2 : ¬ k ∈ rest := by
      intro hc
      exact h (List.mem_cons_of_mem _ hc)
    rw [List.foldl_cons,
      getField_foldl_setField_not_mem rest body (setField d k2 (jsField body k2)) k h2,
      getField_setField_other d k2 k (jsField body k2) h1]

/-- Claim C7: the content-update endpoint rewrites only the nine
allow-listed fields of the addressed request; status, donor and requester
fields keep their stored values whatever the body carries, and other
requests are untouched. -/
theorem updateContent_frame (db : DB) (id : Nat) (body d : Doc)
    (hd : getReq db.requestsCollection id = some d) :
    (updateDonationRequest db id body).1 = Resp.ok ()
    ∧ getReq (updateDonationRequest db id body).2.requestsCollection id
      = some (contentUpdate body d)
    ∧ (∀ k, ¬ k ∈ editableRequestFields →
        getField (contentUpdate body d) k = getField d k)
    ∧ getField (contentUpdate body d) ("status") = getField d ("status")
    ∧ getField (contentUpdate body d) ("donorName") = getField d ("donorName")
    ∧ getField (contentUpdate body d) ("donorEmail") = getField d ("donorEmail")
    ∧ getField (contentUpdate body d) ("requesterEmail")
      = getField d ("requesterEmail")
    ∧ (∀ id2, ¬ id2 = id →
        getReq (updateDonationRequest db id body).2.requestsCollection id2
          = getReq db.requestsCollection id2) := by
  have hmain : ∀ k, ¬ k ∈ editableRequestFields →
      getField (contentUpdate body d) k = getField d k := by
    intro k hk
    exact getField_foldl_setField_not_mem editableRequestFields body d k hk
  refine ⟨rfl, ?_, hmain, hmain ("status") (by decide),
    hmain ("donorName") (by decide), hmain ("donorEmail") (by decide),
    hmain ("requesterEmail") (by decide), ?_⟩
  · show getReq (updateReq db.requestsCollection id (contentUpdate body)) id = _
    rw [getReq_updateReq_same, hd]
    rfl
  · intro id2 h2
    show getReq (updateReq db.requestsCollection id (contentUpdate body)) id2 = _
    exact getReq_updateReq_other _ _ _ _ h2

theorem updateContent_frame_witness :
    getReq dbC7.requestsCollection 3 = some reqDocW
    ∧ ¬ (("donorEmail" : String) ∈ editableRequestFields)
    ∧ (updateDonationRequest dbC7 3 contentBodyW).1 = Resp.ok ()
    ∧ getReq (updateDonationRequest dbC7 3 contentBodyW).2.requestsCollection 3
      = some (contentUpdate contentBodyW reqDocW)
    ∧ getField (contentUpdate contentBodyW reqDocW) ("donorEmail")
      = getField reqDocW ("donorEmail")
    ∧ getField (contentUpdate contentBodyW reqDocW) ("status")
      = getField reqDocW ("status")
    ∧ getField (contentUpdate contentBodyW reqDocW) ("requesterEmail")
      = getField reqDocW ("requesterEmail") :=
  ⟨by decide, by decide,
    (updateContent_frame dbC7 3 contentBodyW reqDocW (by decide)).1,
    (updateContent_frame dbC7 3 contentBodyW reqDocW (by decide)).2.1,
    (updateContent_frame dbC7 3 contentBodyW reqDocW (by decide)).2.2.1
      ("donorEmail") (by decide),
    (updateContent_frame dbC7 3 contentBodyW reqDocW (by decide)).2.2.2.1,
    (updateContent_frame dbC7 3 contentBodyW reqDocW (by decide)).2.2.2.2.2.2.1⟩

-- ------------------------------------------------------------------
-- Check-then-insert idempotence
-- ------------------------------------------------------------------

theorem newUserDoc_email (body : Doc) (now : Value) :
    getField (newUserDoc body now) ("email") = getField body ("email") := by
  unfold newUserDoc
  rw [getField_setField_other _ ("timestamp") ("email") now (by decide),
    getField_setField_other _ ("status") ("email") _ (by decide),
    getField_setField_other _ ("role") ("email") _ (by decide)]

/-- Claim C5: a first POST /users for an absent email inserts the body with
role forced to donor, status forced to active and a timestamp, and a
subsequent call with the same email answers insertedId null and leaves the
users collection exactly as it was. -/
theorem postUsers_first_insert_then_noop (db : DB) (body body2 : Doc)
    (e : String) (now now2 : Value) (freshId freshId2 : Nat)
    (he : getField body ("email") = some (Value.vstr e))
    (he2 : getField body2 ("email") = some (Value.vstr e))
    (habsent : findUserByEmailVal db.usersCollection (some (Value.vstr e)) = none) :
    postUsers db body now freshId
      = (Resp.ok (InsertResp.mk none (some freshId)),
         DB.mk (db.usersCollection ++ [newUserDoc body now])
           db.requestsCollection db.paymentsCollection)
    ∧ getField (newUserDoc body now) ("role") = some (Value.vstr ("donor"))
    ∧ getField (newUserDoc body now) ("status") = some (Value.vstr ("active"))
    ∧ getField (newUserDoc body now) ("timestamp") = some now
    ∧ postUsers (DB.mk (db.usersCollection ++ [newUserDoc body now])
          db.requestsCollection db.paymentsCollection) body2 now2 freshId2
      = (Resp.ok (InsertResp.mk (some ("user already exists")) none),
         DB.mk (db.usersCollection ++ [newUserDoc body now])
           db.requestsCollection db.paymentsCollection) := by
  have hrole : getField (newUserDoc body now) ("role") = some (Value.vstr ("donor")) := by
    unfold newUserDoc
    rw [getField_setField_other _ ("timestamp") ("role") now (by decide),
      getField_setField_other _ ("status") ("role") _ (by decide),
      getField_setField_same]
  have hstatus : getField (newUserDoc body now) ("status") = some (Value.vstr ("active")) := by
    unfold newUserDoc
    rw [getField_setField_other _ ("timestamp") ("status") now (by decide),
      getField_setField_same]
  have htime : getField (newUserDoc body now) ("timestamp") = some now := by
    unfold newUserDoc
    rw [getField_setField_same]
  have hemail : getField (newUserDoc body now) ("email") = some (Value.vstr e) :=
    (newUserDoc_email body now).trans he
  have hfind : findUserByEmailVal (db.usersCollection ++ [newUserDoc body now])
      (some (Value.vstr e)) = some (newUserDoc body now) := by
    unfold findUserByEmailVal at habsent ⊢
    rw [List.find?_append, habsent]
    simp [List.find?_cons, hemail]
  refine ⟨?_, hrole, hstatus, htime, ?_⟩
  · simp [postUsers, he, habsent]
  · simp [postUsers, he2, hfind]

def bodyU : Doc := [(("email"), Value.vstr ("new@x")), (("name"), Value.vstr ("New"))]

theorem postUsers_first_insert_then_noop_witness :
    getField bodyU ("email") = some (Value.vstr ("new@x"))
    ∧ findUserByEmailVal dbW.usersCollection (some (Value.vstr ("new@x"))) = none
    ∧ (postUsers dbW bodyU (Value.vstr ("t0")) 9
        = (Resp.ok (InsertResp.mk none (some 9)),
           DB.mk (dbW.usersCollection ++ [newUserDoc bodyU (Value.vstr ("t0"))])
             dbW.requestsCollection dbW.paymentsCollection)
      ∧ getField (newUserDoc bodyU (Value.vstr ("t0"))) ("role")
        = some (Value.vstr ("donor"))
      ∧ getField (newUserDoc bodyU (Value.vstr ("t0"))) ("status")
        = some (Value.vstr ("active"))
      ∧ getField (newUserDoc bodyU (Value.vstr ("t0"))) ("timestamp")
        = some (Value.vstr ("t0"))
      ∧ postUsers (DB.mk (dbW.usersCollection ++ [newUserDoc bodyU (Value.vstr ("t0"))])
            dbW.requestsCollection dbW.paymentsCollection) bodyU (Value.vstr ("t1")) 10
        = (Resp.ok (InsertResp.mk (some ("user already exists")) none),
           DB.mk (dbW.usersCollection ++ [newUserDoc bodyU (Value.vstr ("t0"))])
             dbW.requestsCollection dbW.paymentsCollection)) :=
  ⟨by decide, by decide,
    postUsers_first_insert_then_noop dbW bodyU bodyU ("new@x") (Value.vstr ("t0"))
      (Value.vstr ("t1")) 9 10 (by decide) (by decide) (by decide)⟩

/-- Claim C6: for a transactionId whose session reports paid and has no
ledger entry yet, POST /payments/save-session appends exactly one entry,
and replaying the same transactionId answers insertedId null and leaves
the ledger exactly as it was. -/
theorem savePayment_idempotent_per_transaction (db : DB) (sid : String)
    (s s2 : StripeSession) (now now2 : Value) (freshId freshId2 : Nat)
    (hp : s.payment_status = "paid") (hp2 : s2.payment_status = "paid")
    (habsent : findPayment db.paymentsCollection sid = none) :
    savePaymentSession db true sid (some s) now freshId
      = (Resp.ok (InsertResp.mk none (some freshId)),
         DB.mk db.usersCollection db.requestsCollection
           (db.paymentsCollection ++ [paymentDoc s sid now]))
    ∧ (db.paymentsCollection ++ [paymentDoc s sid now]).length
      = db.paymentsCollection.length + 1
    ∧ getField (paymentDoc s sid now) ("transactionId") = some (Value.vstr sid)
    ∧ savePaymentSession (DB.mk db.usersCollection db.requestsCollection
          (db.paymentsCollection ++ [paymentDoc s sid now])) true sid (some s2)
          now2 freshId2
      = (Resp.ok (InsertResp.mk (some ("Payment already saved")) none),
         DB.mk db.usersCollection db.requestsCollection
           (db.paymentsCollection ++ [paymentDoc s sid now])) := by
  have htid : getField (paymentDoc s sid now) ("transactionId")
      = some (Value.vstr sid) := rfl
  have hfind : findPayment (db.paymentsCollection ++ [paymentDoc s sid now]) sid
      = some (paymentDoc s sid now) := by
    unfold findPayment at habsent ⊢
    rw [List.find?_append, habsent]
    simp [List.find?_cons, htid]
  refine ⟨?_, by simp, htid, ?_⟩
  · simp [savePaymentSession, hp, habsent]
  · simp [savePaymentSession, hp2, hfind]

theorem savePayment_idempotent_per_transaction_witness :
    (sessionW.payment_status = "paid"
      ∧ findPayment ([] : List Doc) ("tx1") = none)
    ∧ (savePaymentSession (DB.mk [] [] []) true ("tx1") (some sessionW)
          (Value.vstr ("d0")) 4
        = (Resp.ok (InsertResp.mk none (some 4)),
           DB.mk [] [] ([] ++ [paymentDoc sessionW ("tx1") (Value.vstr ("d0"))]))
      ∧ ([] ++ [paymentDoc sessionW ("tx1") (Value.vstr ("d0"))] : List Doc).length
        = List.length ([] : List Doc) + 1
      ∧ getField (paymentDoc sessionW ("tx1") (Value.vstr ("d0"))) ("transactionId")
        = some (Value.vstr ("tx1"))
      ∧ savePaymentSession (DB.mk [] []
            ([] ++ [paymentDoc sessionW ("tx1") (Value.vstr ("d0"))])) true ("tx1")
            (some sessionW) (Value.vstr ("d1")) 5
        = (Resp.ok (InsertResp.mk (some ("Payment already saved")) none),
           DB.mk [] [] ([] ++ [paymentDoc sessionW ("tx1") (Value.vstr ("d0"))]))) :=
  ⟨⟨by decide, by decide⟩,
    by
      have h := savePayment_idempotent_per_transaction (DB.mk [] [] []) ("tx1")
        sessionW sessionW (Value.vstr ("d0")) (Value.vstr ("d1")) 4 5
        (by decide) (by decide) (by decide)
      exact ⟨h.1, h.2.1, h.2.2.1, h.2.2.2⟩⟩

-- ------------------------------------------------------------------
-- Monthly aggregation
-- ------------------------------------------------------------------

/-- Claim C8: the monthlyStats aggregation assigns every request to exactly
one bucket, so the bucket counts sum to the number of requests and each
request's bucket appears among the groups; a parsable donationDate lands in
its own date's bucket, and a missing, null or unparsable one lands in the
current date's bucket rather than being dropped. -/
theorem monthlyStats_bucket_partition (parse : String → Option YM) (now : YM)
    (reqs : List (Nat × Doc)) :
    ((monthlyStats parse now reqs).map Prod.snd).sum = reqs.length
    ∧ (∀ r, r ∈ reqs →
        (bucketOf parse now r.2,
          (reqs.map (fun x => bucketOf parse now x.2)).count
            (bucketOf parse now r.2)) ∈ monthlyStats parse now reqs)
    ∧ (∀ d s ym, getField d ("donationDate") = some (Value.vstr s) →
        parse s = some ym → bucketOf parse now d = ym)
    ∧ (∀ d, getField d ("donationDate") = none → bucketOf parse now d = now)
    ∧ (∀ d, getField d ("donationDate") = some Value.vnull →
        bucketOf parse now d = now)
    ∧ (∀ d s, getField d ("donationDate") = some (Value.vstr s) →
        parse s = none → bucketOf parse now d = now) := by
  refine ⟨?_, ?_, ?_, ?_, ?_, ?_⟩
  · simp only [monthlyStats]
    rw [List.map_map]
    have hcomp : (Prod.snd ∘ fun b => (b, (reqs.map (fun r => bucketOf parse now r.2)).count b))
        = fun b => (reqs.map (fun r => bucketOf parse now r.2)).count b := rfl
    rw [hcomp]
    have hto : (reqs.map (fun r => bucketOf parse now r.2)).dedup.toFinset
        = (reqs.map (fun r => bucketOf parse now r.2)).toFinset := by
      apply Finset.ext
      intro a
      simp [List.mem_toFinset, List.mem_dedup]
    rw [← List.sum_toFinset _ (List.nodup_dedup _), hto,
      List.sum_toFinset_count_eq_length, List.length_map]
  · intro r hr
    simp only [monthlyStats]
    apply List.mem_map.mpr
    refine ⟨bucketOf parse now r.2, ?_, rfl⟩
    rw [List.mem_dedup]
    exact List.mem_map.mpr ⟨r, hr, rfl⟩
  · intro d s ym h1 h2
    simp [bucketOf, h1, h2]
  · intro d h1
    simp [bucketOf, h1]
  · intro d h1
    simp [bucketOf, h1]
  · intro d s h1 h2
    simp [bucketOf, h1, h2]

theorem monthlyStats_bucket_partition_witness :
    ((monthlyStats parseOne (YM.mk 2025 0) reqsC8).map Prod.snd).sum = 4
    ∧ (2, [(("donationDate"), Value.vstr ("garbage"))]) ∈ reqsC8
    ∧ bucketOf parseOne (YM.mk 2025 0)
        [(("donationDate"), Value.vstr ("garbage"))] = YM.mk 2025 0
    ∧ bucketOf parseOne (YM.mk 2025 0)
        [(("donationDate"), Value.vstr ("2024-05-10"))] = YM.mk 2024 5
    ∧ bucketOf parseOne (YM.mk 2025 0) [(("donationDate"), Value.vnull)]
      = YM.mk 2025 0
    ∧ bucketOf parseOne (YM.mk 2025 0) ([] : Doc) = YM.mk 2025 0 :=
  ⟨((monthlyStats_bucket_partition parseOne (YM.mk 2025 0) reqsC8).1).trans
      (by decide),
    by decide,
    (monthlyStats_bucket_partition parseOne (YM.mk 2025 0) reqsC8).2.2.2.2.2
      [(("donationDate"), Value.vstr ("garbage"))] ("garbage")
      (by decide) (by decide),
    (monthlyStats_bucket_partition parseOne (YM.mk 2025 0) reqsC8).2.2.1
      [(("donationDate"), Value.vstr ("2024-05-10"))] ("2024-05-10")
      (YM.mk 2024 5) (by decide) (by decide),
    (monthlyStats_bucket_partition parseOne (YM.mk 2025 0) reqsC8).2.2.2.2.1
      [(("donationDate"), Value.vnull)] (by decide),
    (monthlyStats_bucket_partition parseOne (YM.mk 2025 0) reqsC8).2.2.2.1
      ([] : Doc) (by decide)⟩

-- ------------------------------------------------------------------
-- Level thresholds
-- ------------------------------------------------------------------

/-- Claim C9 counterexample: a donor with exactly 5 done donations is rated
Bronze by the code, while the claim places the Silver threshold at 5 and
above.  The full stats response at that state is computed. -/
theorem level_at_five_counterexample :
    (donorDoneDocs dbC9 ("don@x")).length = 5
    ∧ getUserStats dbC9 ("don@x") ("don@x") parseNone (YM.mk 2025 0)
      = Resp.ok (UserStatsResp.mk 5 0 0 0 100 ("Bronze") 5 2)
    ∧ ¬ ("Bronze" : String) = ("Silver") := by
  refine ⟨by decide, by decide, by decide⟩

/-- Claim C9 (amended): the response's donation count is the number of done
requests with the caller as donor, and the level thresholds are strict:
Bronze up to and including 5, Silver from 6 through 10, Gold from 11 up. -/
theorem level_thresholds_strict (db : DB) (e : String)
    (parse : String → Option YM) (now : YM) :
    getUserStats db e e parse now
      = Resp.ok (UserStatsResp.mk (donorDoneDocs db e).length
          (requesterDocs db e).length (activeRequestsCount db e)
          (thisMonthDonationsCount db e parse now)
          (if (donorDoneDocs db e).length > 0 then 100 else 0)
          (levelOfDonations (donorDoneDocs db e).length)
          (donorDoneDocs db e).length 2)
    ∧ (∀ n, (levelOfDonations n = ("Gold") ↔ 11 ≤ n)
        ∧ (levelOfDonations n = ("Silver") ↔ (6 ≤ n ∧ n ≤ 10))
        ∧ (levelOfDonations n = ("Bronze") ↔ n ≤ 5)) := by
  constructor
  · simp [getUserStats]
  · intro n
    unfold levelOfDonations
    by_cases h10 : n > 10
    · rw [if_pos h10]
      refine ⟨⟨fun _ => by omega, fun _ => rfl⟩, ?_, ?_⟩
      · constructor
        · intro hc
          exact absurd hc (by decide)
        · intro hc
          omega
      · constructor
        · intro hc
          exact absurd hc (by decide)
        · intro hc
          omega
    · rw [if_neg h10]
      by_cases h5 : n > 5
      · rw [if_pos h5]
        refine ⟨?_, ⟨fun _ => by omega, fun _ => rfl⟩, ?_⟩
        · constructor
          · intro hc
            exact absurd hc (by decide)
          · intro hc
            omega
        · constructor
          · intro hc
            exact absurd hc (by decide)
          · intro hc
            omega
      · rw [if_neg h5]
        refine ⟨?_, ?_, ⟨fun _ => by omega, fun _ => rfl⟩⟩
        · constructor
          · intro hc
            exact absurd hc (by decide)
          · intro hc
            omega
        · constructor
          · intro hc
            exact absurd hc (by decide)
          · intro hc
            omega

theorem level_thresholds_strict_witness :
    getUserStats dbC9 ("don@x") ("don@x") parseNone (YM.mk 2025 0)
      = Resp.ok (UserStatsResp.mk (donorDoneDocs dbC9 ("don@x")).length
          (requesterDocs dbC9 ("don@x")).length
          (activeRequestsCount dbC9 ("don@x"))
          (thisMonthDonationsCount dbC9 ("don@x") parseNone (YM.mk 2025 0))
          (if (donorDoneDocs dbC9 ("don@x")).length > 0 then 100 else 0)
          (levelOfDonations (donorDoneDocs dbC9 ("don@x")).length)
          (donorDoneDocs dbC9 ("don@x")).length 2)
    ∧ (levelOfDonations 5 = ("Bronze") ↔ 5 ≤ 5)
    ∧ (levelOfDonations 10 = ("Silver") ↔ (6 ≤ 10 ∧ 10 ≤ 10))
    ∧ (levelOfDonations 11 = ("Gold") ↔ 11 ≤ 11) :=
  ⟨(level_thresholds_strict dbC9 ("don@x") parseNone (YM.mk 2025 0)).1,
    ((level_thresholds_strict dbC9 ("don@x") parseNone (YM.mk 2025 0)).2 5).2.2,
    ((level_thresholds_strict dbC9 ("don@x") parseNone (YM.mk 2025 0)).2 10).2.1,
    ((level_thresholds_strict dbC9 ("don@x") parseNone (YM.mk 2025 0)).2 11).1⟩

end BloodLine
